import Mathlib

/-!
Shallow embedding of the porchlight runtime coupling engine
(src/porchlight/param.py, src/porchlight/door.py,
src/porchlight/neighborhood.py), together with theorems settling the
frozen claims about it.

Modelling conventions:
* Python domain values are `PValue` (the Empty singleton of param.py is the
  constructor `PValue.empty`; `isinstance(v, Empty)` / `v == Empty()` is
  `PValue.isEmptyV`, faithful because `Empty.__eq__` is identity on the
  singleton).
* Python dicts keyed by strings are insertion-ordered association lists with
  unique keys (`dictGet`/`dictSet`/`dictDel` mirror `d[k]`, `d[k] = v`,
  `del d[k]`).
* A raised exception is returned as `some e : Option PyError` (or `.error`)
  paired with the object state at the moment of the raise, since in Python the
  receiver keeps all mutations made before the exception propagated.
* The mutable default argument `listeners: List[Callable] = []` of
  `Param.__init__` is a single list object created once at function-definition
  time; listener lists are therefore kept in a small heap `PWorld`, with cell 0
  playing the role of that shared default object. Listeners themselves are
  opaque ids; firing a listener is recorded, not interpreted.
* Doors wrap a base callable, modelled as a function from the assembled
  keyword-argument dictionary to the returned value. Positional-only
  arguments, DynamicDoor, argument mappings and the dynamic_door=True path of
  add_door are outside the claims and are not modelled; `overwrite_defaults`
  is threaded explicitly.
-/

namespace Porchlight

/-- Domain values held by parameters and produced by doors.  `empty` is the
`param.Empty` singleton marker; `tuple` models a Python tuple (the only
iterable the model needs for multi-output unpacking). -/
inductive PValue where
  | empty : PValue
  | int : Int → PValue
  | str : String → PValue
  | tuple : List PValue → PValue

/-- Models `isinstance(v, Empty)` and `v == Empty()`: `Empty.__eq__` is
identity on the singleton, so the check holds exactly for the marker. -/
def PValue.isEmptyV : PValue → Bool
  | .empty => true
  | _ => false

/-- The Python runtime type of a value, as recorded by `type(self._value)` in
the `Param.value` setter. -/
inductive PType where
  | emptyT : PType
  | intT : PType
  | strT : PType
  | tupleT : PType
deriving DecidableEq

/-- Models `type(v)` restricted to the modelled value domain. -/
def PValue.ptype : PValue → PType
  | .empty => .emptyT
  | .int _ => .intT
  | .str _ => .strT
  | .tuple _ => .tupleT

/-- Listener callbacks are opaque, identified by a number. -/
abbrev ListenerId := Nat

/-- Heap of listener-list objects.  Cell 0 is the single list object created
once for the mutable default argument `listeners=[]` of `Param.__init__`;
`next` is the next fresh cell for explicitly passed lists. -/
structure PWorld where
  store : Nat → List ListenerId
  next : Nat

/-- The world at interpreter start: the shared default list (cell 0) is empty
and no explicit list object has been allocated yet. -/
def pWorldInit : PWorld := { store := fun _ => [], next := 1 }

/-- Overwrite one heap cell. -/
def PWorld.setCell (w : PWorld) (r : Nat) (xs : List ListenerId) : PWorld :=
  { w with store := fun q => if q = r then xs else w.store q }

/-- Embedding of `param.Param`: `__slots__` holds `_name`, `_value`,
`constant`, `_type`, `restrict`, `_listeners`; the listener list is a heap
reference. -/
structure Param where
  name : String
  value : PValue
  constant : Bool
  type : PType
  restrict : Option (PValue → Bool)
  listeners : Nat

/-- Models `Param(name, value, constant, restrict)` with the `listeners`
argument left at its default: the stored list is the shared default object,
cell 0. -/
def mkParam (name : String) (value : PValue) (constant : Bool)
    (restrict : Option (PValue → Bool)) : Param :=
  { name := name, value := value, constant := constant,
    type := value.ptype, restrict := restrict, listeners := 0 }

/-- Models `Param(name, value)`, the two-argument construction used throughout
`neighborhood.py`. -/
def mkParamDefault (name : String) (value : PValue) : Param :=
  mkParam name value false none

/-- Models `Param(name, value, constant, restrict, listeners=ls)` with an
explicitly passed (fresh) list object: a new heap cell is allocated for it. -/
def mkParamWithListeners (w : PWorld) (name : String) (value : PValue)
    (constant : Bool) (restrict : Option (PValue → Bool))
    (ls : List ListenerId) : Param × PWorld :=
  ({ name := name, value := value, constant := constant,
     type := value.ptype, restrict := restrict, listeners := w.next },
   { store := fun q => if q = w.next then ls else w.store q,
     next := w.next + 1 })

/-- The error message raised by the `Param.value` setter on a constant. -/
def notMutableMsg (name : String) : String :=
  "Parameter " ++ name ++ " is not mutable."

/-- The error message raised by the `Param.value` setter when `restrict`
rejects the candidate. -/
def restrictMsg : String :=
  "Parameter restriction rejected value."

/-- Embedding of the `Param.value` setter, without the listener firing: check
`constant`, then `restrict`, then store the value and refresh `_type`.
Returns the raised message (if any) and the parameter state afterwards. -/
def Param.setValueCore (p : Param) (newValue : PValue) :
    Option String × Param :=
  if p.constant then (some (notMutableMsg p.name), p)
  else
    match p.restrict with
    | some r =>
        if r newValue = false then (some restrictMsg, p)
        else (none, { p with value := newValue, type := newValue.ptype })
    | none => (none, { p with value := newValue, type := newValue.ptype })

/-- Embedding of the `Param.value` setter including `_notify_listeners`: on a
successful write the listeners currently in the parameter's list object are
fired, in order; a failed write fires none. -/
def Param.setValueFired (p : Param) (w : PWorld) (newValue : PValue) :
    Option String × Param × List ListenerId :=
  match p.setValueCore newValue with
  | (some e, p') => (some e, p', [])
  | (none, p') => (none, p', w.store p.listeners)

/-- Embedding of `Param.add_listener`: appends to the parameter's list object
unless the listener is already present (then it only warns). -/
def addListener (w : PWorld) (p : Param) (l : ListenerId) : PWorld :=
  let cur := w.store p.listeners
  if l ∈ cur then w else w.setCell p.listeners (cur ++ [l])

/-- Python dict lookup `d[k]` on an insertion-ordered association list. -/
def dictGet {α : Type} : List (String × α) → String → Option α
  | [], _ => none
  | (k, v) :: rest, key => if k = key then some v else dictGet rest key

/-- Python dict assignment `d[k] = v`: replaces in place, else appends. -/
def dictSet {α : Type} : List (String × α) → String → α → List (String × α)
  | [], key, v => [(key, v)]
  | (k, v0) :: rest, key, v =>
      if k = key then (key, v) :: rest else (k, v0) :: dictSet rest key v

/-- Python `del d[k]` (keys are unique by construction). -/
def dictDel {α : Type} : List (String × α) → String → List (String × α)
  | [], _ => []
  | (k, v0) :: rest, key =>
      if k = key then rest else (k, v0) :: dictDel rest key

/-- Embedding of `door.Door` as it is seen by the neighborhood: the callable
name, the declared argument names in signature order, the keyword-argument
defaults (`keyword_args[x]` is the `Param(x, default)` created during
inspection; arguments without a default carry the `empty` marker, matching
`Param(name, Empty())`), the flat list of return-value names produced by
`_inspect_base_callable`, and the wrapped base callable, modelled as a
function from the assembled keyword-argument dictionary to the result.
Positional-only parameters are not modelled. -/
structure Door where
  name : String
  arguments : List String
  keywordArgs : List (String × PValue)
  returnVals : List String
  baseFunction : List (String × PValue) → PValue

/-- Embedding of `Door.required_arguments`: the arguments whose recorded
keyword default is the Empty marker (`keyword_args[x].value == Empty()`). -/
def Door.requiredArguments (d : Door) : List String :=
  d.arguments.filter (fun x => ((dictGet d.keywordArgs x).getD .empty).isEmptyV)

/-- Embedding of `BaseDoor.__eq__` between two doors: the names are compared
(`self.name is other.name`; on the interned name strings the code works with,
object identity of the names coincides with string equality, which is how the
check is modelled). -/
def doorEqB (a b : Door) : Bool :=
  a.name == b.name

/-- Constructor failures of `BaseDoor._inspect_base_callable`. -/
inductive DoorFail where
  | multipleReturnSets : DoorFail
deriving DecidableEq

/-- Embedding of the output-name consistency check at the end of
`BaseDoor._inspect_base_callable`: given the non-empty name lists collected by
`_get_return_vals` (one per contributing return statement, in source order),
raise `DoorError` as soon as two collected lists differ, otherwise keep
`return_vals[0]` (or the empty list when nothing was collected). -/
def checkReturnVals (returnVals : List (List String)) :
    Except DoorFail (List String) :=
  if returnVals.any (fun retList => returnVals.any (fun rl => decide (rl ≠ retList)))
  then .error .multipleReturnSets
  else
    match returnVals with
    | [] => .ok []
    | r :: _ => .ok r

/-- Exceptions crossing the neighborhood boundary, tagged by their Python
class. -/
inductive PyError where
  | valueError : String → PyError
  | keyError : String → PyError
  | parameterError : String → PyError
  | typeError : String → PyError
deriving DecidableEq

/-- The `run_step` gate message listing the missing required parameters. -/
def missingMsg (missing : List String) : String :=
  "Missing parameters required for input: " ++ toString missing ++ "."

/-- The `call_all_doors` message for a door overwriting a constant. -/
def constMsg (doorName pname : String) : String :=
  "Door " ++ doorName ++ " is attempting to change a constant parameter: "
    ++ pname ++ "."

/-- The `set_param` message for a constant parameter. -/
def setConstMsg (pname : String) : String :=
  "Parameter " ++ pname ++ " is set to constant."

/-- Embedding of `neighborhood.Neighborhood`: the door dict, the parameter
dict, the call order, the `initialization` callables (already doors; `None`
is the empty list) and the `has_initialized` flag.  The `finalization` phase
is outside the claims and not modelled. -/
structure Neighborhood where
  doors : List (String × Door)
  params : List (String × Param)
  callOrder : List String
  initialization : List Door
  hasRunInit : Bool

/-- A neighborhood as built by `Neighborhood()` with no initial doors. -/
def Neighborhood.emptyN : Neighborhood :=
  { doors := [], params := [], callOrder := [], initialization := [],
    hasRunInit := false }

/-- The `value` argument of `add_param`, which accepts either a ready-made
`Param` object or a plain value to wrap. -/
inductive ParamOrValue where
  | pobj : Param → ParamOrValue
  | pval : PValue → ParamOrValue

/-- Embedding of `Neighborhood.add_param`. -/
def Neighborhood.addParam (n : Neighborhood) (parameterName : String)
    (value : ParamOrValue) (constant : Bool)
    (restrict : Option (PValue → Bool)) : Neighborhood :=
  let newParam :=
    match value with
    | .pobj p => p
    | .pval v => mkParam parameterName v constant restrict
  { n with params := dictSet n.params parameterName newParam }

/-- Embedding of `Neighborhood.set_param`: look the old parameter up (KeyError
when absent), refuse constants unless `ignore_constant`, then replace the
entry with a fresh `Param(parameter_name, new_value, constant)`. -/
def Neighborhood.setParam (n : Neighborhood) (parameterName : String)
    (newValue : PValue) (constant : Bool) (ignoreConstant : Bool) :
    Except PyError Neighborhood :=
  match dictGet n.params parameterName with
  | none => .error (.keyError parameterName)
  | some oldParam =>
      if ignoreConstant = false ∧ oldParam.constant = true then
        .error (.parameterError (setConstMsg oldParam.name))
      else
        .ok { n with params :=
                (dictSet n.params parameterName
                  (mkParam parameterName newValue constant none)) }

/-- Embedding of `Neighborhood.add_door` for a single static door
(`dynamic_door=False`): store the door, append its name to the call order,
seed a parameter for every argument not yet present (or always, when
`overwrite_defaults`) from the inspected keyword default, and seed an Unset
parameter for every return value not yet present. -/
def Neighborhood.addDoor (n : Neighborhood) (newDoor : Door)
    (overwriteDefaults : Bool) : Neighborhood :=
  let n1 := { n with doors := dictSet n.doors newDoor.name newDoor,
                     callOrder := n.callOrder ++ [newDoor.name] }
  let n2 := newDoor.arguments.foldl
    (fun acc pname =>
      if (dictGet acc.params pname).isNone || overwriteDefaults then
        let value : ParamOrValue :=
          match dictGet newDoor.keywordArgs pname with
          | some dv => .pobj (mkParamDefault pname dv)
          | none => .pval .empty
        acc.addParam pname value false none
      else acc) n1
  if newDoor.returnVals = [] then n2
  else
    newDoor.returnVals.foldl
      (fun acc pname =>
        if (dictGet acc.params pname).isNone then
          { acc with params :=
              dictSet acc.params pname (mkParamDefault pname .empty) }
        else acc) n2

/-- Embedding of `Neighborhood.remove_door`: KeyError when the name is
unknown, otherwise delete the entry from `_doors` (the call order is left
untouched, as in the source). -/
def Neighborhood.removeDoor (n : Neighborhood) (name : String) :
    Except PyError Neighborhood :=
  if (dictGet n.doors name).isNone then
    .error (.keyError ("Could not find a door named " ++ name ++ "."))
  else
    .ok { n with doors := dictDel n.doors name }

/-- Embedding of `Neighborhood.order_doors`: an empty list or one longer than
the door dict is a ValueError; the first name not registered is a KeyError;
otherwise the list becomes the call order. -/
def Neighborhood.orderDoors (n : Neighborhood) (order : List String) :
    Except PyError Neighborhood :=
  if order = [] then .error (.valueError "Empty or invalid input.")
  else if n.doors.length < order.length then
    .error (.valueError "More labels provided than doors.")
  else
    match order.find? (fun nm => (dictGet n.doors nm).isNone) with
    | some bad => .error (.keyError ("Could not find door with label: " ++ bad))
    | none => .ok { n with callOrder := order }

/-- Embedding of the `Neighborhood.empty_parameters` property: the names (dict
keys) of the parameters whose value is the Empty marker, in insertion order. -/
def Neighborhood.emptyParameters (n : Neighborhood) : List String :=
  (n.params.filter (fun kv => kv.2.value.isEmptyV)).map (fun kv => kv.1)

/-- Set-membership add on the insertion-ordered list modelling a Python set. -/
def setAdd (s : List String) (x : String) : List String :=
  if x ∈ s then s else s ++ [x]

/-- Embedding of the `Neighborhood.required_parameters` property, faithful to
the source loop nesting: for each door (in registration order) and for each of
its required arguments, the argument is recorded as required when it is not
yet in `returned_args`, and then — still inside the per-argument loop — the
door return values are iterated with `for ra in d.return_vals: for p in ra`,
which, `return_vals` being a flat list of name strings, adds the individual
characters of each return-value name. -/
def Neighborhood.requiredParameters (n : Neighborhood) : List String :=
  ((n.doors.map (fun kv => kv.2)).foldl
    (fun acc d =>
      d.requiredArguments.foldl
        (fun acc2 pname =>
          let reqArgs := if pname ∈ acc2.2 then acc2.1 else setAdd acc2.1 pname
          let returnedArgs := d.returnVals.foldl
            (fun racc ra => ra.toList.foldl
              (fun racc2 c => setAdd racc2 (String.singleton c)) racc) acc2.2
          (reqArgs, returnedArgs)) acc)
    ([], [])).1

/-- The input gathering loop of `call_all_doors`:
`input_params[pname] = self._params[pname].value` for each declared argument,
KeyError (modelled as `none`) when a parameter is missing. -/
def Neighborhood.gatherInputValues (n : Neighborhood) :
    List String → Option (List (String × PValue))
  | [] => some []
  | pname :: rest =>
      match dictGet n.params pname with
      | none => none
      | some p =>
          (n.gatherInputValues rest).map (fun l => (pname, p.value) :: l)

/-- The output pairing of `call_all_doors`: with more than one declared return
value the result is unpacked positionally (`zip(return_vals, output)`; only
tuples are iterable in the model, anything else is the TypeError `zip` would
raise), with exactly one the whole result is bound to it.  The caller handles
the no-return-value case. -/
def buildUpdates (d : Door) (output : PValue) :
    Except PyError (List (String × PValue)) :=
  if 1 < d.returnVals.length then
    match output with
    | .tuple vs => .ok (d.returnVals.zip vs)
    | _ => .error (.typeError "zip argument is not iterable")
  else
    match d.returnVals with
    | [] => .ok []
    | r :: _ => .ok [(r, output)]

/-- The parameter update loop at the end of `call_all_doors`: for each output
name in order, look the parameter up (KeyError when absent), replace it
outright when its value is the Empty marker, then — on the possibly refreshed
entry — raise ParameterError when it is constant, and otherwise go through the
`Param.value` setter. -/
def Neighborhood.distributeOutputs :
    Neighborhood → String → List (String × PValue) →
      Option PyError × Neighborhood
  | n, _, [] => (none, n)
  | n, doorName, (pname, newValue) :: rest =>
      match dictGet n.params pname with
      | none => (some (.keyError pname), n)
      | some p =>
          let n1 :=
            if p.value.isEmptyV then
              { n with params :=
                  (dictSet n.params pname (mkParamDefault pname newValue)) }
            else n
          match dictGet n1.params pname with
          | none => (some (.keyError pname), n1)
          | some p1 =>
              if p1.constant then
                (some (.parameterError (constMsg doorName pname)), n1)
              else
                match p1.setValueCore newValue with
                | (some e, _) => (some (.parameterError e), n1)
                | (none, p2) =>
                    Neighborhood.distributeOutputs
                      { n1 with params := (dictSet n1.params pname p2) }
                      doorName rest

/-- The per-door loop of `call_all_doors` over the remaining call order
(static doors only): fetch the door (KeyError when the call order names an
unregistered door), gather its input values, invoke the base callable, skip
the update when it declares no return values, and otherwise distribute the
result. -/
def Neighborhood.callDoorsFrom :
    Neighborhood → List String → Option PyError × Neighborhood
  | n, [] => (none, n)
  | n, doorName :: rest =>
      match dictGet n.doors doorName with
      | none => (some (.keyError doorName), n)
      | some curDoor =>
          match n.gatherInputValues curDoor.arguments with
          | none => (some (.keyError "missing input parameter"), n)
          | some inputParams =>
              let output := curDoor.baseFunction inputParams
              if curDoor.returnVals = [] then n.callDoorsFrom rest
              else
                match buildUpdates curDoor output with
                | .error e => (some e, n)
                | .ok updates =>
                    match n.distributeOutputs curDoor.name updates with
                    | (some e, n1) => (some e, n1)
                    | (none, n1) => n1.callDoorsFrom rest

/-- Embedding of `Neighborhood.call_all_doors`. -/
def Neighborhood.callAllDoors (n : Neighborhood) :
    Option PyError × Neighborhood :=
  n.callDoorsFrom n.callOrder

/-- Embedding of `Neighborhood.gather_door_arguments` restricted to doors
without positional-only parameters (so everything is passed by keyword):
`known_params = defaults | self._params` — the neighborhood entry wins — and
each declared argument reads `known_params[p].value` (the defaults dict
already carries plain values here), KeyError (`none`) when a name is in
neither. -/
def Neighborhood.gatherWithDefaults (n : Neighborhood)
    (defaults : List (String × PValue)) :
    List String → Option (List (String × PValue))
  | [] => some []
  | pname :: rest =>
      let v? :=
        match dictGet n.params pname with
        | some p => some p.value
        | none => dictGet defaults pname
      match v? with
      | none => none
      | some v =>
          (n.gatherWithDefaults defaults rest).map (fun l => (pname, v) :: l)

/-- The result pairing inside `Neighborhood.initialize`: with at most one
declared return value the raw result is wrapped in a singleton list before
`zip(return_values, result)`; with more, the result must be iterable (a tuple
in the model). -/
def initBuildResults (returnVals : List String) (result : PValue) :
    Except PyError (List (String × PValue)) :=
  if returnVals.length ≤ 1 then .ok (returnVals.zip [result])
  else
    match result with
    | .tuple vs => .ok (returnVals.zip vs)
    | _ => .error (.typeError "zip argument is not iterable")

/-- The update loop inside `Neighborhood.initialize`: return values whose name
was a neighborhood parameter before the loop go through `set_param` (which can
raise on constants), the others are added as new parameters. -/
def Neighborhood.initDistribute :
    Neighborhood → List String → List (String × PValue) →
      Option PyError × Neighborhood
  | n, _, [] => (none, n)
  | n, neighborhoodParams, (retval, value) :: rest =>
      if retval ∈ neighborhoodParams then
        match n.setParam retval value false false with
        | .error e => (some e, n)
        | .ok n1 => n1.initDistribute neighborhoodParams rest
      else
        (n.addParam retval (.pval value) false none).initDistribute
          neighborhoodParams rest

/-- The per-callable loop of `Neighborhood.initialize`: build the defaults
dict from the keyword arguments whose default is not the Empty marker, gather
arguments with those defaults, invoke the callable, then distribute the
results against a snapshot of the parameter names taken before the update
loop. -/
def Neighborhood.initRun :
    Neighborhood → List Door → Option PyError × Neighborhood
  | n, [] => (none, n)
  | n, fxn :: rest =>
      let defaults :=
        fxn.keywordArgs.filter (fun kv => kv.2.isEmptyV = false)
      match n.gatherWithDefaults defaults fxn.arguments with
      | none => (some (.keyError "missing input parameter"), n)
      | some kwargs =>
          let result := fxn.baseFunction kwargs
          let neighborhoodParams := n.params.map (fun kv => kv.1)
          match initBuildResults fxn.returnVals result with
          | .error e => (some e, n)
          | .ok pairs =>
              match n.initDistribute neighborhoodParams pairs with
              | (some e, n1) => (some e, n1)
              | (none, n1) => n1.initRun rest

/-- Embedding of `Neighborhood.initialize`: return immediately when
`has_initialized` is set or the `initialization` list is falsy, otherwise run
every initialization callable.  The source never sets `has_initialized` to
`True`, and neither does the model. -/
def Neighborhood.initPhase (n : Neighborhood) :
    Option PyError × Neighborhood :=
  if n.hasRunInit || n.initialization.isEmpty then (none, n)
  else n.initRun n.initialization

/-- Embedding of `Neighborhood.run_step`: run the initialization phase, then
abort with ParameterError when a required parameter (per
`required_parameters`) is still Empty (per `empty_parameters`), naming the
missing ones; otherwise call every door. -/
def Neighborhood.runStep (n : Neighborhood) : Option PyError × Neighborhood :=
  match n.initPhase with
  | (some e, n1) => (some e, n1)
  | (none, n1) =>
      let emptyParams := n1.emptyParameters
      let reqArgs := n1.requiredParameters
      if emptyParams.any (fun e => decide (e ∈ reqArgs)) then
        (some (.parameterError
          (missingMsg (emptyParams.filter (fun e => decide (e ∈ reqArgs))))), n1)
      else n1.callAllDoors

/-- The contract inspected from `def f(x, y=1): z = x + y; return z`:
arguments x (no default) and y (default 1), single return value z, and the
base callable computing the sum of its two integer inputs. -/
def fxyDoor : Door :=
  { name := "f", arguments := ["x", "y"],
    keywordArgs := [("x", .empty), ("y", .int 1)],
    returnVals := ["z"],
    baseFunction := fun kw =>
      match dictGet kw "x", dictGet kw "y" with
      | some (.int a), some (.int b) => .int (a + b)
      | _, _ => .empty }

/-- The coordinator after registering `fxyDoor` into a fresh neighborhood. -/
def c4Registered : Neighborhood :=
  Neighborhood.emptyN.addDoor fxyDoor false

/-- `c4Registered` after `set_param("x", 2)`. -/
def c4AfterSet : Neighborhood :=
  match c4Registered.setParam "x" (.int 2) false false with
  | .ok n => n
  | .error _ => Neighborhood.emptyN

/-- A contract `def g(u): ab = 7; return ab` with the multi-character output
name ab. -/
def gAbDoor : Door :=
  { name := "g", arguments := ["u"],
    keywordArgs := [("u", .empty)],
    returnVals := ["ab"],
    baseFunction := fun _ => .int 7 }

/-- A contract `def f(ab): c = 0; return c` consuming ab. -/
def fAbDoor : Door :=
  { name := "f", arguments := ["ab"],
    keywordArgs := [("ab", .empty)],
    returnVals := ["c"],
    baseFunction := fun _ => .int 0 }

/-- The coordinator holding `gAbDoor` then `fAbDoor`, with u set to 1 and the
parameters ab and c still Unset. -/
def c1State : Neighborhood :=
  match ((Neighborhood.emptyN.addDoor gAbDoor false).addDoor fAbDoor
      false).setParam "u" (.int 1) false false with
  | .ok n => n
  | .error _ => Neighborhood.emptyN

/-- A contract with no inputs and no outputs, named f. -/
def fPlainDoor : Door :=
  { name := "f", arguments := [], keywordArgs := [], returnVals := [],
    baseFunction := fun _ => .empty }

/-- A contract with no inputs and no outputs, named g. -/
def gPlainDoor : Door :=
  { name := "g", arguments := [], keywordArgs := [], returnVals := [],
    baseFunction := fun _ => .empty }

/-- The coordinator with the two plain contracts f and g registered, in that
order. -/
def fgRegistered : Neighborhood :=
  (Neighborhood.emptyN.addDoor fPlainDoor false).addDoor gPlainDoor false

/-- `fgRegistered` after `remove_door("f")`. -/
def c6State : Neighborhood :=
  match fgRegistered.removeDoor "f" with
  | .ok n => n
  | .error _ => Neighborhood.emptyN

/-- Whether `order_doors(["f"])` on `fgRegistered` was accepted. -/
def c7Accepted : Bool :=
  match fgRegistered.orderDoors ["f"] with
  | .ok _ => true
  | .error _ => false

/-- The coordinator produced by `order_doors(["f"])` on `fgRegistered`. -/
def c7State : Neighborhood :=
  match fgRegistered.orderDoors ["f"] with
  | .ok n => n
  | .error _ => Neighborhood.emptyN

/-- An initialization callable `def counter(n=0): n = n + 1; return n`. -/
def counterDoor : Door :=
  { name := "counter", arguments := ["n"],
    keywordArgs := [("n", .int 0)],
    returnVals := ["n"],
    baseFunction := fun kw =>
      match dictGet kw "n" with
      | some (.int m) => .int (m + 1)
      | _ => .empty }

/-- A fresh coordinator constructed with `initialization=[counter]`. -/
def c8Start : Neighborhood :=
  { Neighborhood.emptyN with initialization := [counterDoor] }

/-- `c8Start` after one `initialize()` call. -/
def c8Once : Neighborhood := c8Start.initPhase.2

/-- `c8Once` after a second `initialize()` call. -/
def c8Twice : Neighborhood := c8Once.initPhase.2

/-- The coordinator holding a constant parameter k of value `v` and one
registered contract (named h, no inputs) that declares k as its output, the
base callable being arbitrary. -/
def c3State (v : PValue) (dfn : List (String × PValue) → PValue) :
    Neighborhood :=
  (Neighborhood.emptyN.addParam "k" (.pval v) true none).addDoor
    { name := "h", arguments := [], keywordArgs := [], returnVals := ["k"],
      baseFunction := dfn } false

/-- A list has more than one distinct element (its dedup is longer than one)
exactly when it holds two unequal members. -/
theorem one_lt_dedup_length_iff {α : Type} [DecidableEq α] (l : List α) :
    1 < l.dedup.length ↔ ∃ a ∈ l, ∃ b ∈ l, a ≠ b := by
  constructor
  · intro h
    rcases hd : l.dedup with _ | ⟨x, _ | ⟨y, t⟩⟩
    · rw [hd] at h; simp at h
    · rw [hd] at h; simp at h
    · have hx : x ∈ l.dedup := by rw [hd]; exact List.mem_cons_self _ _
      have hy : y ∈ l.dedup := by rw [hd]; simp
      have hnd := l.nodup_dedup
      rw [hd] at hnd
      have hxy : x ≠ y := by
        intro hxyeq
        exact (List.nodup_cons.mp hnd).1 (hxyeq ▸ List.mem_cons_self _ _)
      exact ⟨x, List.mem_dedup.mp hx, y, List.mem_dedup.mp hy, hxy⟩
  · rintro ⟨a, ha, b, hb, hab⟩
    by_contra hle
    push_neg at hle
    have ha' : a ∈ l.dedup := List.mem_dedup.mpr ha
    have hb' : b ∈ l.dedup := List.mem_dedup.mpr hb
    rcases hd : l.dedup with _ | ⟨x, _ | ⟨y, t⟩⟩
    · rw [hd] at ha'; simp at ha'
    · rw [hd] at ha' hb'
      simp at ha' hb'
      exact hab (ha'.trans hb'.symm)
    · rw [hd] at hle; simp at hle

/-- The consistency check raises exactly when two collected lists differ. -/
theorem checkReturnVals_error_iff (rvs : List (List String)) :
    checkReturnVals rvs = .error .multipleReturnSets ↔
      ∃ a ∈ rvs, ∃ b ∈ rvs, a ≠ b := by
  by_cases hb :
      rvs.any (fun retList => rvs.any (fun rl => decide (rl ≠ retList))) = true
  · constructor
    · intro _
      rw [List.any_eq_true] at hb
      obtain ⟨retList, hmem, hinner⟩ := hb
      rw [List.any_eq_true] at hinner
      obtain ⟨rl, hrl, hne⟩ := hinner
      rw [decide_eq_true_eq] at hne
      exact ⟨rl, hrl, retList, hmem, hne⟩
    · intro _
      simp only [checkReturnVals, hb, if_true]
  · constructor
    · intro herr
      exfalso
      rw [Bool.not_eq_true] at hb
      simp only [checkReturnVals, hb, Bool.false_eq_true, if_false] at herr
      rcases rvs with _ | ⟨r, rest⟩ <;> simp at herr
    · rintro ⟨a, ha, b, hbm, hab⟩
      exfalso
      apply hb
      rw [List.any_eq_true]
      refine ⟨b, hbm, ?_⟩
      rw [List.any_eq_true]
      exact ⟨a, ha, by simpa using hab⟩

/-- When all collected lists agree, the check keeps the first (or none). -/
theorem checkReturnVals_ok (rvs : List (List String))
    (h : ∀ a ∈ rvs, ∀ b ∈ rvs, a = b) :
    checkReturnVals rvs = .ok (rvs.headD []) := by
  have hb :
      rvs.any (fun retList => rvs.any (fun rl => decide (rl ≠ retList))) = false := by
    rw [Bool.eq_false_iff]
    intro hany
    rw [List.any_eq_true] at hany
    obtain ⟨retList, hmem, hinner⟩ := hany
    rw [List.any_eq_true] at hinner
    obtain ⟨rl, hrl, hne⟩ := hinner
    rw [decide_eq_true_eq] at hne
    exact hne (h rl hrl retList hmem)
  simp only [checkReturnVals, hb, Bool.false_eq_true, if_false]
  rcases rvs with _ | ⟨r, rest⟩ <;> rfl

/-- C1: the claim says `run_step` must compute the required inputs as the
default-less inputs of all contracts minus every name produced as an output
by some contract, and abort only when one of the remaining names is Unset.
On the coordinator `c1State` — doors `g(u) -> ab` then `f(ab) -> c`, u set,
ab and c Unset — the name ab is an output of the registered contract g, so
under the claim it is not required and the step must proceed; the code
instead iterates the characters of each return-value name, keeps ab in
`required_parameters`, and `run_step` raises ParameterError listing ab. -/
theorem claim_c1_required_gate_mismatch :
    c1State.runStep.1 = some (.parameterError (missingMsg ["ab"]))
    ∧ c1State.requiredParameters = ["u", "ab"]
    ∧ gAbDoor.returnVals = ["ab"]
    ∧ (dictGet c1State.doors "g") = some gAbDoor := by
  exact ⟨rfl, rfl, rfl, rfl⟩

/-- C2: for every constant parameter and every candidate value, an unforced
write through the `Param.value` setter raises ParameterError, leaves the
stored parameter unchanged, and fires no listener. -/
theorem claim_c2_constant_write (w : PWorld) (p : Param) (v : PValue)
    (h : p.constant = true) :
    p.setValueFired w v = (some (notMutableMsg p.name), p, []) := by
  simp [Param.setValueFired, Param.setValueCore, h]

/-- C2 witness: the theorem applied to a concrete constant parameter holding
1 and the candidate value 2. -/
theorem claim_c2_constant_write_witness :
    (mkParam "c0" (.int 1) true none).constant = true
    ∧ (mkParam "c0" (.int 1) true none).setValueFired pWorldInit (.int 2) =
        (some (notMutableMsg "c0"), mkParam "c0" (.int 1) true none, []) := by
  exact ⟨rfl, claim_c2_constant_write pWorldInit (mkParam "c0" (.int 1) true none)
    (.int 2) rfl⟩

/-- C3: a coordinator holding a constant, non-Unset parameter k and a
registered contract declaring k among its outputs: `run_step` raises
ParameterError when that contract result is distributed, and the parameter k
keeps its prior value (the whole coordinator state is unchanged). -/
theorem claim_c3_constant_output (v : PValue)
    (dfn : List (String × PValue) → PValue) (hv : v.isEmptyV = false) :
    (c3State v dfn).runStep =
      (some (.parameterError (constMsg "h" "k")), c3State v dfn)
    ∧ dictGet (c3State v dfn).params "k" = some (mkParam "k" v true none) := by
  refine ⟨?_, rfl⟩
  simp [c3State, Neighborhood.emptyN, Neighborhood.addParam,
    Neighborhood.addDoor, Neighborhood.runStep, Neighborhood.initPhase,
    Neighborhood.emptyParameters, Neighborhood.requiredParameters,
    Door.requiredArguments, Neighborhood.callAllDoors,
    Neighborhood.callDoorsFrom, Neighborhood.gatherInputValues, buildUpdates,
    Neighborhood.distributeOutputs, Neighborhood.initRun, dictGet, dictSet,
    mkParam, mkParamDefault, hv]

/-- C3 witness: the theorem applied at k = 5 (with an arbitrary contract
body returning 99). -/
theorem claim_c3_constant_output_witness :
    (PValue.int 5).isEmptyV = false
    ∧ ((c3State (.int 5) (fun _ => .int 99)).runStep =
        (some (.parameterError (constMsg "h" "k")),
         c3State (.int 5) (fun _ => .int 99))
      ∧ dictGet (c3State (.int 5) (fun _ => .int 99)).params "k" =
          some (mkParam "k" (.int 5) true none)) := by
  exact ⟨rfl, claim_c3_constant_output (.int 5) (fun _ => .int 99) rfl⟩

/-- C4: registering `f(x, y=1) -> z = x + y` creates exactly the parameters
x (Unset and required), y (holding the default 1) and z (Unset); after
`set_param("x", 2)` one `run_step` completes without error, z holds 3 and y
still holds 1. -/
theorem claim_c4_register_and_step :
    c4Registered.params =
      [("x", mkParamDefault "x" .empty), ("y", mkParamDefault "y" (.int 1)),
       ("z", mkParamDefault "z" .empty)]
    ∧ fxyDoor.requiredArguments = ["x"]
    ∧ c4AfterSet.runStep.1 = none
    ∧ dictGet c4AfterSet.runStep.2.params "z" =
        some (mkParam "z" (.int 3) false none)
    ∧ dictGet c4AfterSet.runStep.2.params "y" =
        some (mkParamDefault "y" (.int 1)) := by
  exact ⟨rfl, rfl, rfl, rfl, rfl⟩

/-- C5: for every callable handed to contract construction, when the
distinct non-empty output-name lists collected across its return statements
number more than one, the consistency check fails with DoorError, and
otherwise the single collected list (or the empty list when none was
collected) becomes the output-name list. -/
theorem claim_c5_return_sets (rvs : List (List String))
    (hne : ∀ l ∈ rvs, l ≠ []) :
    (checkReturnVals rvs = .error .multipleReturnSets ↔ 1 < rvs.dedup.length)
    ∧ (rvs.dedup.length ≤ 1 → checkReturnVals rvs = .ok (rvs.headD [])) := by
  constructor
  · rw [checkReturnVals_error_iff, one_lt_dedup_length_iff]
  · intro hlen
    apply checkReturnVals_ok
    intro a ha b hbm
    by_contra hab
    have : 1 < rvs.dedup.length :=
      (one_lt_dedup_length_iff rvs).mpr ⟨a, ha, b, hbm, hab⟩
    omega

/-- C5 witness: the theorem applied to the collected lists [[a], [b]] (two
distinct non-empty lists, so the check must fail). -/
theorem claim_c5_return_sets_witness :
    (∀ l ∈ [["a"], ["b"]], l ≠ ([] : List String))
    ∧ ((checkReturnVals [["a"], ["b"]] = .error .multipleReturnSets ↔
          1 < [["a"], ["b"]].dedup.length)
      ∧ ([["a"], ["b"]].dedup.length ≤ 1 →
          checkReturnVals [["a"], ["b"]] = .ok ([["a"], ["b"]].headD []))) := by
  exact ⟨by decide, claim_c5_return_sets [["a"], ["b"]] (by decide)⟩

/-- C6: the claim says that after any sequence of register, unregister and
reorder operations the call order is exactly the set of registered contract
names.  After registering f and g and then `remove_door("f")`, the code
leaves the call order at [f, g] while only g is still registered: the
invariant is broken because `remove_door` never touches `_call_order`. -/
theorem claim_c6_call_order_invariant_broken :
    c6State.callOrder = ["f", "g"]
    ∧ c6State.doors.map (fun kv => kv.1) = ["g"]
    ∧ "f" ∈ c6State.callOrder
    ∧ "f" ∉ c6State.doors.map (fun kv => kv.1) := by
  exact ⟨rfl, rfl, by decide, by decide⟩

/-- C7: the claim says `order_doors` accepts only exact permutations of the
registered names, rejecting wrong-size lists with ValueError.  With f and g
registered, the strictly smaller list [f] is accepted — no error is raised
and the call order becomes [f], which is not a permutation of the registered
names. -/
theorem claim_c7_order_doors_accepts_subset :
    c7Accepted = true
    ∧ c7State.callOrder = ["f"]
    ∧ fgRegistered.doors.map (fun kv => kv.1) = ["f", "g"]
    ∧ "g" ∉ c7State.callOrder := by
  exact ⟨rfl, rfl, rfl, by decide⟩

/-- C8: the claim says `initialize()` is one-shot after a first successful
call.  With `initialization=[counter]` where counter is `n = n + 1` from the
default 0, the first call leaves n = 1, but the has-run flag is never set, so
a second call runs the callable again and n becomes 2: calling twice differs
from calling once. -/
theorem claim_c8_reruns_on_second_call :
    c8Start.initPhase.1 = none
    ∧ dictGet c8Once.params "n" = some (mkParam "n" (.int 1) false none)
    ∧ c8Once.hasRunInit = false
    ∧ c8Once.initPhase.1 = none
    ∧ dictGet c8Twice.params "n" = some (mkParam "n" (.int 2) false none) := by
  exact ⟨rfl, rfl, rfl, rfl, rfl⟩

/-- C9: equality of two contracts holds exactly when their names are equal,
regardless of the wrapped callable (so doors over different callables with
equal names compare equal, and doors over the same callable under different
names compare unequal). -/
theorem claim_c9_name_equality (d1 d2 : Door) :
    doorEqB d1 d2 = true ↔ d1.name = d2.name := by
  simp [doorEqB]

/-- C10: any two parameters constructed without an explicit listeners
argument share the single mutable default list, so a listener registered on
one of them through `add_listener` also fires on every successful write to
any other default-constructed parameter. -/
theorem claim_c10_shared_default_listeners (w : PWorld) (n1 n2 : String)
    (v1 v2 newValue : PValue) (l : ListenerId) :
    (mkParamDefault n1 v1).listeners = (mkParamDefault n2 v2).listeners
    ∧ ((mkParamDefault n2 v2).setValueFired
        (addListener w (mkParamDefault n1 v1) l) newValue).1 = none
    ∧ l ∈ ((mkParamDefault n2 v2).setValueFired
        (addListener w (mkParamDefault n1 v1) l) newValue).2.2 := by
  refine ⟨rfl, rfl, ?_⟩
  simp only [Param.setValueFired, Param.setValueCore, mkParamDefault, mkParam,
    addListener, PWorld.setCell]
  by_cases hl : l ∈ w.store 0
  · simp [hl]
  · simp [hl]

end Porchlight
